import Mathlib

set_option linter.unusedVariables false

/-!
Shallow embedding of `src/varnish/logs.py`: the `RequestLog` factory
(`RequestLog.__new__`) with its descriptor table `RequestLog._lines`, the
`add_chunk` activation/completion state machine, the per-tag field
extraction of `RequestLog.on_append_chunk`, `ClientRequestLog.on_append_chunk`
and `BackendRequestLog.on_append_chunk`, and the per-chunk callback logic of
`VarnishLogs.dispatch_requests`.

Modelling notes, all anchored to the source:
* A log chunk carries a file descriptor (`fd`), a role (the source exposes
  boolean attributes `chunk.client` / `chunk.backend`), a tag and a payload
  string (`chunk.data`).  Tags are modelled by their name strings, since the
  source compares `chunk.tag.name` against string literals.
* The two Python subclasses `ClientRequestLog` / `BackendRequestLog` are
  modelled as one structure with a `kind` discriminant; fields that the
  source initializes only in one subclass simply stay at their initial
  value for the other kind.
* Python exceptions (failed `int(...)`, tuple-unpack errors, the
  `isinstance` assertions in `__new__`, `AttributeError` on `_last_vcl`)
  become an `Option String` fault component.  Mutations performed before
  the raise point persist, exactly as attribute assignments on the shared
  objects persist in the source when a later statement raises; the
  dispatcher's bare `except` is the fault branch of `dispatchStep`.
* `datetime.fromtimestamp(float(..))` conversions in the `reqend` handler
  are not interpreted: the six payload tokens are stored as raw strings
  (no claim constrains the numeric values).
* The class-level dict `RequestLog._lines` is modelled as a function
  `Int → Option RequestLog`; Python's aliasing of the table entry with the
  object under mutation is rendered by writing the mutated record back to
  the table (`writeBack`) whenever its descriptor is still bound.
-/

inductive Role where
  | client : Role
  | backend : Role
  | other : Role
deriving DecidableEq, Repr

structure Chunk where
  fd : Int
  role : Role
  tag : String
  data : String
deriving DecidableEq, Repr

/-- Source attribute `chunk.client`. -/
def Chunk.client (c : Chunk) : Bool := c.role == Role.client

/-- Source attribute `chunk.backend`. -/
def Chunk.backend (c : Chunk) : Bool := c.role == Role.backend

inductive Kind where
  | client : Kind
  | backend : Kind
deriving DecidableEq, Repr

/-- Unified shape of `RequestLog` / `ClientRequestLog` / `BackendRequestLog`
instances: all attributes assigned anywhere in the three `init` methods or
in the append handlers.  `client`/`backend` mirror the attributes of the
same name, set on every append from the appended chunk's role; `last_vcl`
mirrors `_last_vcl` (absent attribute modelled as `none`).
`backend_request` holds the descriptor of the associated backend record
(the source stores an object reference that lives in `_lines` under that
descriptor). -/
structure RequestLog where
  kind : Kind
  fd : Int
  chunks : List Chunk
  active : Bool
  complete : Bool
  rxheaders : List (String × String)
  txheaders : List (String × String)
  rxprotocol : Option String
  txprotocol : Option String
  method : Option String
  url : Option String
  status : Option Int
  response : Option String
  length : Option Int
  client : Bool
  backend : Bool
  id : Option String
  vcl_calls : List (String × String)
  hash_data : List String
  client_ip : Option String
  client_port : Option String
  started_at : Option String
  completed_at : Option String
  req_start_delay : Option String
  processing_time : Option String
  deliver_time : Option String
  backend_request : Option Int
  last_vcl : Option String
  backend_name : Option String
  director_name : Option String
deriving DecidableEq, Repr

/-- The `init` methods: every optional field unset, containers empty,
`complete = False`, `active` as passed (default `False` at every call
site reachable from the dispatcher). -/
def initLog (k : Kind) (fd : Int) (active : Bool) : RequestLog :=
  { kind := k, fd := fd, chunks := [], active := active, complete := false,
    rxheaders := [], txheaders := [], rxprotocol := Option.none,
    txprotocol := Option.none, method := Option.none, url := Option.none,
    status := Option.none, response := Option.none, length := Option.none,
    client := false, backend := false, id := Option.none, vcl_calls := [],
    hash_data := [], client_ip := Option.none, client_port := Option.none,
    started_at := Option.none, completed_at := Option.none,
    req_start_delay := Option.none, processing_time := Option.none,
    deliver_time := Option.none, backend_request := Option.none,
    last_vcl := Option.none, backend_name := Option.none,
    director_name := Option.none }

/-- The class-level dict `RequestLog._lines`, keyed by descriptor. -/
abbrev Table := Int → Option RequestLog

def emptyTable : Table := fun _ => Option.none

def Table.set (t : Table) (fd : Int) (r : RequestLog) : Table :=
  fun k => if k = fd then some r else t k

def Table.erase (t : Table) (fd : Int) : Table :=
  fun k => if k = fd then Option.none else t k

/-- Python `s.strip()`: surrounding whitespace removed. -/
def pyStrip (s : String) : String :=
  String.mk (((s.data.dropWhile Char.isWhitespace).reverse.dropWhile Char.isWhitespace).reverse)

/-- Python `s.lower()` (ASCII case folding, which is all the source's tag
payloads use). -/
def pyLower (s : String) : String :=
  String.mk (s.data.map Char.toLower)

def digitsToNatAux : List Char → Nat → Option Nat
  | [], acc => some acc
  | c :: rest, acc =>
      if c.isDigit then digitsToNatAux rest (acc * 10 + (c.toNat - 48))
      else Option.none

/-- Python `int(s)`: strips surrounding whitespace, then parses an
optionally signed decimal numeral; `none` models the `ValueError` raise. -/
def pyInt (s : String) : Option Int :=
  match (pyStrip s).data with
  | [] => Option.none
  | '-' :: rest =>
      (match rest with
       | [] => Option.none
       | _ => (digitsToNatAux rest 0).map (fun n => -(n : Int)))
  | '+' :: rest =>
      (match rest with
       | [] => Option.none
       | _ => (digitsToNatAux rest 0).map (fun n => (n : Int)))
  | l => (digitsToNatAux l 0).map (fun n => (n : Int))

def splitCharAux (sep : Char) : List Char → List Char → List String
  | [], acc => [String.mk acc.reverse]
  | ch :: rest, acc =>
      if ch = sep then String.mk acc.reverse :: splitCharAux sep rest []
      else splitCharAux sep rest (ch :: acc)

/-- Python `s.split(sep)` for a one-character separator: empty fields from
adjacent separators are kept, `"".split(sep) == [""]`. -/
def pySplit (sep : Char) (s : String) : List String :=
  splitCharAux sep s.data []

def splitFirstAux (sep : Char) : List Char → List Char → Option (String × String)
  | [], _ => Option.none
  | ch :: rest, acc =>
      if ch = sep then some (String.mk acc.reverse, String.mk rest)
      else splitFirstAux sep rest (ch :: acc)

/-- Python truthiness of an optional string attribute (`None` and the
empty string are falsy), as used by `if not self.backend_request.director_name`. -/
def pyFalsyStr (o : Option String) : Bool :=
  match o with
  | Option.none => true
  | some s => s == ""

/-- Python `s.split(":", 1)` followed by a two-name unpack: the text before
the first `:` and everything after it; `none` models the `ValueError`
when the payload holds no `:`. -/
def splitHeader (s : String) : Option (String × String) :=
  splitFirstAux ':' s.data []

/-- Modelled from the spec: `MultiDict.__setitem__` lives in
`varnish/utils.py`, which is not under `src/`; the spec describes the
mapping as "ordered multi-valued mapping (key lower-cased, insertion order
preserved, duplicate keys retained)", so item assignment appends an entry. -/
def multiSet (m : List (String × String)) (k v : String) : List (String × String) :=
  m ++ [(k, v)]

/-- Modelled from the spec: `MultiDict.__contains__` lives in
`varnish/utils.py`, which is not under `src/`; the spec's derived-predicate
sentence reads "hit = \x22hit\x22 present among cache_decisions values", so
membership is membership among the mapping's values. -/
def multiContains (m : List (String × String)) (x : String) : Bool :=
  m.any (fun kv => kv.2 == x)

/-- Base `RequestLog.on_append_chunk`: records the appended chunk's role,
appends it to `chunks`, then runs the shared tag dispatch. -/
def onAppendBase (r : RequestLog) (c : Chunk) : RequestLog × Option String :=
  let r1 : RequestLog :=
    { r with client := c.client, backend := c.backend, chunks := r.chunks ++ [c] }
  if c.tag = "rxheader" then
    match splitHeader c.data with
    | some kv =>
        ({ r1 with rxheaders := multiSet r1.rxheaders (pyLower (pyStrip kv.1)) (pyStrip kv.2) },
         Option.none)
    | Option.none => (r1, some "ValueError: unpack rxheader")
  else if c.tag = "txheader" then
    match splitHeader c.data with
    | some kv =>
        ({ r1 with txheaders := multiSet r1.txheaders (pyLower (pyStrip kv.1)) (pyStrip kv.2) },
         Option.none)
    | Option.none => (r1, some "ValueError: unpack txheader")
  else if c.tag = "rxprotocol" then ({ r1 with rxprotocol := some c.data }, Option.none)
  else if c.tag = "txprotocol" then ({ r1 with txprotocol := some c.data }, Option.none)
  else if c.tag = "length" then
    match pyInt c.data with
    | some n => ({ r1 with length := some n }, Option.none)
    | Option.none => (r1, some "ValueError: int length")
  else (r1, Option.none)

/-- `ClientRequestLog.on_append_chunk` tag dispatch (run after the base
dispatch).  The `backend` tag resolves or forward-creates a
`BackendRequestLog` in the table, exactly as lines 313-332 of the source. -/
def onAppendClient (t : Table) (r : RequestLog) (c : Chunk) :
    Table × RequestLog × Option String :=
  if c.tag = "vcl_call" then (t, { r with last_vcl := some c.data }, Option.none)
  else if c.tag = "vcl_return" then
    match r.last_vcl with
    | some k =>
        (t, { r with vcl_calls := multiSet r.vcl_calls k c.data,
                     last_vcl := Option.none }, Option.none)
    | Option.none => (t, r, some "AttributeError: _last_vcl")
  else if c.tag = "hash" then (t, { r with hash_data := r.hash_data ++ [c.data] }, Option.none)
  else if c.tag = "length" then
    match pyInt c.data with
    | some n => (t, { r with length := some n }, Option.none)
    | Option.none => (t, r, some "ValueError: int length")
  else if c.tag = "rxrequest" then (t, { r with method := some c.data }, Option.none)
  else if c.tag = "rxurl" then (t, { r with url := some c.data }, Option.none)
  else if c.tag = "reqstart" then
    match pySplit ' ' c.data with
    | [ip, port, xid] =>
        (t, { r with client_ip := some ip, client_port := some port, id := some xid },
         Option.none)
    | _ => (t, r, some "ValueError: unpack reqstart")
  else if c.tag = "txstatus" then
    match pyInt c.data with
    | some n => (t, { r with status := some n }, Option.none)
    | Option.none => (t, r, some "ValueError: int txstatus")
  else if c.tag = "txresponse" then (t, { r with response := some c.data }, Option.none)
  else if c.tag = "backend" then
    match pySplit ' ' c.data with
    | [bfdStr, director, backendName] =>
        (match pyInt bfdStr with
         | Option.none => (t, r, some "ValueError: int backend fd")
         | some bfd =>
            match t bfd with
            | some br =>
                let r1 : RequestLog := { r with backend_request := some bfd }
                if br.kind = Kind.backend then
                  let br1 : RequestLog :=
                    if pyFalsyStr br.director_name then
                      { br with director_name := some director }
                    else br
                  (t.set bfd br1, r1, Option.none)
                else
                  (t, r1, some "AssertionError: fd in request table should have been a BackendRequestLog")
            | Option.none =>
                let br0 : RequestLog := initLog Kind.backend bfd false
                let br1 : RequestLog := { br0 with backend_name := some backendName }
                let t1 : Table := t.set bfd br1
                let r1 : RequestLog := { r with backend_request := some bfd }
                let br2 : RequestLog :=
                  if pyFalsyStr br1.director_name then
                    { br1 with director_name := some director }
                  else br1
                (t1.set bfd br2, r1, Option.none))
    | _ => (t, r, some "ValueError: unpack backend")
  else if c.tag = "reqend" then
    match pySplit ' ' c.data with
    | [xid, sat, cat, rsd, pt, dt] =>
        (t, { r with started_at := some sat, completed_at := some cat,
                     req_start_delay := some rsd, processing_time := some pt,
                     deliver_time := some dt }, Option.none)
    | _ => (t, r, some "ValueError: unpack reqend")
  else (t, r, Option.none)

/-- `BackendRequestLog.on_append_chunk` tag dispatch (run after the base
dispatch).  `backendopen`/`backendreuse` take the first space-separated
token of the payload (`chunk.data.split(" ")[0]`, which never raises). -/
def onAppendBackend (r : RequestLog) (c : Chunk) : RequestLog × Option String :=
  if c.tag = "txrequest" then ({ r with method := some c.data }, Option.none)
  else if c.tag = "txurl" then ({ r with url := some c.data }, Option.none)
  else if c.tag = "rxstatus" then
    match pyInt c.data with
    | some n => ({ r with status := some n }, Option.none)
    | Option.none => (r, some "ValueError: int rxstatus")
  else if c.tag = "rxresponse" then ({ r with response := some c.data }, Option.none)
  else if c.tag = "backendopen" ∨ c.tag = "backendreuse" then
    ({ r with backend_name := some ((pySplit ' ' c.data).headD "") }, Option.none)
  else (r, Option.none)

/-- Full `on_append_chunk` virtual dispatch: base handler first, then the
kind-specific handler (skipped when the base handler raised, with the base
mutations already applied — Python attribute assignment persists past a
later raise). -/
def onAppendChunk (t : Table) (r : RequestLog) (c : Chunk) :
    Table × RequestLog × Option String :=
  match onAppendBase r c with
  | (r1, some e) => (t, r1, some e)
  | (r1, Option.none) =>
      match r1.kind with
      | Kind.client => onAppendClient t r1 c
      | Kind.backend =>
          let res := onAppendBackend r1 c
          (t, res.1, res.2)

/-- Activation condition of `add_chunk` (lines 214-216). -/
def isStartChunk (c : Chunk) : Bool :=
  (c.client && c.tag == "reqstart") || (c.backend && c.tag == "backendopen")

/-- Completion condition of `add_chunk` (lines 222-224). -/
def isEndChunk (c : Chunk) : Bool :=
  (c.client && c.tag == "reqend") ||
    (c.backend && (c.tag == "backendclose" || c.tag == "backendreuse"))

/-- Completion step plus append of `add_chunk` (lines 222-231): on an end
chunk set `complete`, clear `active`, and for a client chunk delete the
record's own descriptor from the table, all before `on_append_chunk` runs. -/
def addChunkCore (t : Table) (r : RequestLog) (c : Chunk) :
    Table × RequestLog × Bool × Option String :=
  let step : Table × RequestLog :=
    if isEndChunk c then
      ((if c.client then t.erase r.fd else t),
       { r with complete := true, active := false })
    else (t, r)
  match onAppendChunk step.1 step.2 c with
  | (t2, r2, fault) => (t2, r2, r2.complete, fault)

/-- `RequestLog.add_chunk` (lines 210-231): descriptor-0 records ignore
everything; an inactive record activates on a role-matching start chunk
and silently discards every other chunk; then the completion/append step
runs.  The `Bool` component is the source's return value `self.complete`
(meaningless when the fault component is set, since Python would have
raised before returning). -/
def addChunk (t : Table) (r : RequestLog) (c : Chunk) :
    Table × RequestLog × Bool × Option String :=
  if r.fd = 0 then (t, r, false, Option.none)
  else if !r.active && isStartChunk c then
    addChunkCore t { r with active := true } c
  else if !r.active then (t, r, false, Option.none)
  else addChunkCore t r c

/-- Commit step of the factory: the mutated record is written back to the
table whenever its descriptor is still bound (in the source the table
entry and the mutated object are the same object); on a fault no object
is returned (`__new__` raised), but the mutations stay. -/
def writeBack (t : Table) (fd : Int) (r : RequestLog) : Table :=
  fun k => if k = fd then (match t fd with
                           | some _ => some r
                           | Option.none => Option.none)
           else t k

def finishNew (x : Table × RequestLog × Bool × Option String) :
    Table × Option RequestLog × Option String :=
  match x with
  | (t, r, _b, some e) => (writeBack t r.fd r, Option.none, some e)
  | (t, r, _b, Option.none) => (writeBack t r.fd r, some r, Option.none)

/-- `RequestLog.__new__` (lines 164-190): look the descriptor up in
`_lines`; assert the kind of a found record matches the chunk's role;
otherwise create a `ClientRequestLog` or `BackendRequestLog` (or return
`None` for a role-less chunk), bind it, and feed the chunk via
`add_chunk`.  Returns (table, returned object, fault). -/
def requestLogNew (t : Table) (c : Chunk) : Table × Option RequestLog × Option String :=
  match t c.fd with
  | some obj =>
      if c.client && !(obj.kind == Kind.client) then
        (t, Option.none, some "AssertionError: found non-client record when processing client request log chunk")
      else if c.backend && !(obj.kind == Kind.backend) then
        (t, Option.none, some "AssertionError: found non-backend record when processing backend request log chunk")
      else finishNew (addChunk t obj c)
  | Option.none =>
      match c.role with
      | Role.client =>
          let obj := initLog Kind.client c.fd false
          finishNew (addChunk (t.set c.fd obj) obj c)
      | Role.backend =>
          let obj := initLog Kind.backend c.fd false
          finishNew (addChunk (t.set c.fd obj) obj c)
      | Role.other => (t, Option.none, Option.none)

/-- The fixed administrative tag set of `dispatch_requests` (the source
builds it with `name_to_tag`, which resolves these names). -/
def ignoredTags : List String := ["sessionopen", "sessionclose", "statsess"]

/-- State threaded through `dispatch_requests`: the factory table, the
records handed to the `callback` consumer in order, and the number of
faults swallowed by the bare `except` of the inner callback `cb`. -/
structure DispatchState where
  table : Table
  delivered : List RequestLog
  faults : Nat

def initialState : DispatchState :=
  { table := emptyTable, delivered := [], faults := 0 }

/-- One run of the inner callback `cb` of `VarnishLogs.dispatch_requests`
(lines 115-144): descriptor-0 chunks go to the non-request path,
administrative tags are skipped, then the factory runs; invalid,
incomplete and chunkless backend records are dropped; the completed
record is delivered under `aggregate` only when it is a client record,
and always otherwise.  A raised fault is counted and the loop goes on
(`except: ... pass`). -/
def dispatchStep (aggregate : Bool) (st : DispatchState) (c : Chunk) : DispatchState :=
  if c.fd = 0 then st
  else if ignoredTags.contains c.tag then st
  else
    match requestLogNew st.table c with
    | (t, _, some _) =>
        { table := t, delivered := st.delivered, faults := st.faults + 1 }
    | (t, Option.none, Option.none) => { st with table := t }
    | (t, some ev, Option.none) =>
        if !ev.complete || (ev.backend && ev.chunks.isEmpty) then
          { st with table := t }
        else if (aggregate && ev.client) || !aggregate then
          { table := t, delivered := st.delivered ++ [ev], faults := st.faults }
        else { st with table := t }

/-- `VarnishLogs.dispatch_requests` over a finite chunk stream: fold the
per-chunk callback over every chunk (callback return values never stop
the iteration). -/
def dispatchRequests (aggregate : Bool) (cs : List Chunk) : DispatchState :=
  cs.foldl (dispatchStep aggregate) initialState

/-- Iterated `add_chunk` on one record (used to state the header
aggregation property). -/
def addChunks (t : Table) (r : RequestLog) (cs : List Chunk) : Table × RequestLog :=
  cs.foldl (fun acc c =>
    match addChunk acc.1 acc.2 c with
    | (t1, r1, _, _) => (t1, r1)) (t, r)

/-- A client-role request-header chunk carrying payload `p`. -/
def headerChunk (fd : Int) (p : String) : Chunk :=
  { fd := fd, role := Role.client, tag := "rxheader", data := p }

/-- The `rxheaders` entry the source produces from one header payload:
text before the first `:` trimmed and lower-cased, the rest trimmed. -/
def headerEntry (p : String) : String × String :=
  match splitHeader p with
  | some kv => (pyLower (pyStrip kv.1), pyStrip kv.2)
  | Option.none => ("", "")

/-- `ClientRequestLog.hit` (property, line 344). -/
def RequestLog.hit (r : RequestLog) : Bool := multiContains r.vcl_calls "hit"

/-- `ClientRequestLog.miss` (property, line 348). -/
def RequestLog.miss (r : RequestLog) : Bool := multiContains r.vcl_calls "miss"

/-! ### Concrete fixtures -/

/-- One complete client transaction on descriptor 7 referencing one
complete backend transaction on descriptor 8. -/
def aggFixture : List Chunk :=
  [ { fd := 8, role := Role.backend, tag := "backendopen", data := "be0 10" },
    { fd := 7, role := Role.client, tag := "reqstart", data := "1.2.3.4 55 100" },
    { fd := 7, role := Role.client, tag := "backend", data := "8 dir0 be0" },
    { fd := 8, role := Role.backend, tag := "backendclose", data := "be0 10" },
    { fd := 7, role := Role.client, tag := "reqend", data := "100 1 2 3 4 5" } ]

/-- A client transaction carrying an unparsable status payload, followed by
an unrelated valid client transaction. -/
def faultFixture : List Chunk :=
  [ { fd := 7, role := Role.client, tag := "reqstart", data := "1.2.3.4 55 100" },
    { fd := 7, role := Role.client, tag := "txstatus", data := "abc" },
    { fd := 7, role := Role.client, tag := "reqend", data := "100 1 2 3 4 5" },
    { fd := 9, role := Role.client, tag := "reqstart", data := "5.6.7.8 66 200" },
    { fd := 9, role := Role.client, tag := "txstatus", data := "200" },
    { fd := 9, role := Role.client, tag := "reqend", data := "200 1 2 3 4 5" } ]

/-- A backend transaction that completes and then receives one more
backend-role fragment whose tag is not a start tag. -/
def redeliverFixture : List Chunk :=
  [ { fd := 8, role := Role.backend, tag := "backendopen", data := "be0 10" },
    { fd := 8, role := Role.backend, tag := "backendclose", data := "be0 10" },
    { fd := 8, role := Role.backend, tag := "rxheader", data := "a: b" } ]

/-- Descriptor 7 used first by a backend transaction that completes, then
reused by an unrelated client transaction (the scenario of the reuse-safety
claim, in the claim's orientation). -/
def reuseBadFixture : List Chunk :=
  [ { fd := 7, role := Role.backend, tag := "backendopen", data := "be0 10" },
    { fd := 7, role := Role.backend, tag := "backendclose", data := "be0 10" },
    { fd := 7, role := Role.client, tag := "reqstart", data := "1.2.3.4 55 100" },
    { fd := 7, role := Role.client, tag := "reqend", data := "100 1 2 3 4 5" } ]

/-- Descriptor 7 used first by a client transaction that completes, then
reused by an unrelated backend transaction. -/
def reuseGoodFixture : List Chunk :=
  [ { fd := 7, role := Role.client, tag := "reqstart", data := "1.2.3.4 5 100" },
    { fd := 7, role := Role.client, tag := "rxurl", data := "/a" },
    { fd := 7, role := Role.client, tag := "reqend", data := "100 1 2 3 4 5" },
    { fd := 7, role := Role.backend, tag := "backendopen", data := "b1 10" },
    { fd := 7, role := Role.backend, tag := "txurl", data := "/b" },
    { fd := 7, role := Role.backend, tag := "backendclose", data := "b1 10" } ]

/-- A backend transaction that completes and is then re-opened by a fresh
backendopen fragment carrying a different backend name. -/
def reopenFixture : List Chunk :=
  [ { fd := 8, role := Role.backend, tag := "backendopen", data := "b1 10" },
    { fd := 8, role := Role.backend, tag := "backendclose", data := "b1 10" },
    { fd := 8, role := Role.backend, tag := "backendopen", data := "b2 10" } ]

/-- A backend record created by a client forward reference (name `nameX`),
then reached by its own backendopen fragment carrying name `nameY`. -/
def overwriteFixture : List Chunk :=
  [ { fd := 7, role := Role.client, tag := "reqstart", data := "1.2.3.4 55 100" },
    { fd := 7, role := Role.client, tag := "backend", data := "8 dir0 nameX" },
    { fd := 8, role := Role.backend, tag := "backendopen", data := "nameY 10" } ]

/-- Client reqstart fragment on an unbound descriptor. -/
def reqstart5 : Chunk :=
  { fd := 5, role := Role.client, tag := "reqstart", data := "1.2.3.4 80 42" }

/-- Client request-url fragment on descriptor 5. -/
def rxurl5 : Chunk :=
  { fd := 5, role := Role.client, tag := "rxurl", data := "/x" }

/-- Backend request-header fragment on descriptor 8. -/
def rxh8 : Chunk :=
  { fd := 8, role := Role.backend, tag := "rxheader", data := "a: b" }

/-- Client reqend fragment on descriptor 7. -/
def reqend7 : Chunk :=
  { fd := 7, role := Role.client, tag := "reqend", data := "100 1 2 3 4 5" }

/-- Client backend-reference fragment on descriptor 7 naming backend
descriptor 8. -/
def backendRef7 : Chunk :=
  { fd := 7, role := Role.client, tag := "backend", data := "8 dirNew nameZ" }

/-- A completed, retained backend record on descriptor 8. -/
def doneBackend8 : RequestLog :=
  { initLog Kind.backend 8 false with
    complete := true,
    backend_name := some "b1" }

/-- An active client record on descriptor 7. -/
def activeClient7 : RequestLog := initLog Kind.client 7 true

/-- A backend record on descriptor 8 whose backend and director names are
already present. -/
def refBackend8 : RequestLog :=
  { initLog Kind.backend 8 false with
    backend_name := some "nameX",
    director_name := some "d0" }

/-! ### Helper lemmas -/

theorem addChunk_inactive (t : Table) (r : RequestLog) (c : Chunk)
    (hact : r.active = false) (hstart : isStartChunk c = false) :
    addChunk t r c = (t, r, false, Option.none) := by
  unfold addChunk
  split
  · rfl
  · rw [hact, hstart]
    simp

theorem onAppendBase_reqend (r : RequestLog) (c : Chunk) (htag : c.tag = "reqend") :
    onAppendBase r c =
      ({ r with client := c.client, backend := c.backend, chunks := r.chunks ++ [c] },
       Option.none) := by
  simp only [onAppendBase, htag]
  repeat rw [if_neg (by decide)]

theorem onAppendChunk_reqend_client (t : Table) (r : RequestLog) (c : Chunk)
    (hk : r.kind = Kind.client) (htag : c.tag = "reqend") :
    (onAppendChunk t r c).1 = t ∧ (onAppendChunk t r c).2.1.fd = r.fd := by
  rw [onAppendChunk, onAppendBase_reqend r c htag]
  simp only [hk]
  simp only [onAppendClient, htag]
  repeat rw [if_neg (by decide)]
  simp only [if_true]
  refine ⟨?_, ?_⟩ <;> (split <;> rfl)

theorem finishNew_onAppend_reqend (t0 : Table) (rp : RequestLog) (c : Chunk)
    (hk : rp.kind = Kind.client) (htag : c.tag = "reqend")
    (h0 : t0 rp.fd = Option.none) (fd2 : Int) (hfd2 : fd2 = rp.fd) :
    (finishNew ((onAppendChunk t0 rp c).1, (onAppendChunk t0 rp c).2.1,
      (onAppendChunk t0 rp c).2.1.complete, (onAppendChunk t0 rp c).2.2)).1 fd2
      = Option.none := by
  have h := onAppendChunk_reqend_client t0 rp c hk htag
  rcases hX : onAppendChunk t0 rp c with ⟨t2, r2, f⟩
  rw [hX] at h
  obtain ⟨h1, h2⟩ := h
  subst h1
  subst hfd2
  simp only at h2 h0
  cases f with
  | none => simp [finishNew, writeBack, h2, h0]
  | some err => simp [finishNew, writeBack, h2, h0]

theorem client_reqend_unbinds (t : Table) (r : RequestLog) (e : Chunk)
    (ht : t e.fd = some r) (hk : r.kind = Kind.client) (hact : r.active = true)
    (hfd : r.fd = e.fd) (hfd0 : ¬ e.fd = 0)
    (hrole : e.role = Role.client) (htag : e.tag = "reqend") :
    (requestLogNew t e).1 e.fd = Option.none := by
  have hcl : e.client = true := by simp [Chunk.client, hrole]
  have hbk : e.backend = false := by simp [Chunk.backend, hrole]
  have hrfd : ¬ r.fd = 0 := by rw [hfd]; exact hfd0
  have hend : isEndChunk e = true := by simp [isEndChunk, hcl, hbk, htag]
  simp only [requestLogNew, ht, hcl, hbk, hk]
  simp only [show (Kind.client == Kind.client) = true from rfl, Bool.not_true,
    Bool.true_and, Bool.and_false, Bool.false_and, Bool.false_eq_true, if_false]
  rw [addChunk, if_neg hrfd]
  simp only [hact, Bool.not_true, Bool.false_and, Bool.false_eq_true, if_false]
  rw [addChunkCore]
  simp only [hend, if_true, hcl]
  refine finishNew_onAppend_reqend (t.erase r.fd) ?_ e ?_ htag ?_ e.fd ?_
  · exact hk
  · simp [Table.erase]
  · exact hfd.symm

theorem finishNew_isSome_iff (x : Table × RequestLog × Bool × Option String) :
    ((finishNew x).2.1.isSome = true ↔ (finishNew x).2.2 = Option.none) := by
  rcases x with ⟨t, r, b, f⟩
  cases f <;> simp [finishNew]

theorem addChunks_nil (t : Table) (r : RequestLog) : addChunks t r [] = (t, r) := rfl

theorem addChunks_cons (t : Table) (r : RequestLog) (c : Chunk) (cs : List Chunk) :
    addChunks t r (c :: cs)
      = addChunks (addChunk t r c).1 (addChunk t r c).2.1 cs := by
  rw [addChunks, List.foldl_cons]
  rfl

theorem addChunk_rxheader (t : Table) (r : RequestLog) (p : String) (kv : String × String)
    (hk : r.kind = Kind.client) (hact : r.active = true) (hfd : ¬ r.fd = 0)
    (hkv : splitHeader p = some kv) :
    addChunk t r (headerChunk r.fd p)
      = (t,
         { r with
           kind := Kind.client,
           client := true,
           backend := false,
           chunks := r.chunks ++ [headerChunk r.fd p],
           rxheaders := r.rxheaders ++ [(pyLower (pyStrip kv.1), pyStrip kv.2)] },
         r.complete, Option.none) := by
  have hstart : isStartChunk (headerChunk r.fd p) = false := rfl
  have hend : isEndChunk (headerChunk r.fd p) = false := rfl
  rw [addChunk, if_neg hfd]
  simp only [hact, hstart, Bool.not_true, Bool.false_and, Bool.and_false,
    Bool.false_eq_true, if_false]
  rw [addChunkCore]
  simp only [hend, Bool.false_eq_true, if_false]
  simp only [onAppendChunk, onAppendBase, headerChunk, hkv, multiSet]
  simp only [hk, hact]
  rfl

/-! ### Claims -/

/-- C1 (amended): a descriptor used first by a client transaction that
completes and is then reused by an unrelated backend transaction yields two
independent, non-interfering records with no field bleed between them (the
claim's own orientation — backend first, then client — instead raises
consistency faults, see the counterexample).  On `reuseGoodFixture` the
dispatcher under `aggregate = false` delivers exactly the client record and
then the backend record, each carrying only its own fragments and field
values. -/
theorem reuse_client_then_backend_clean :
    (dispatchRequests false reuseGoodFixture).delivered.map RequestLog.kind
        = [Kind.client, Kind.backend]
  ∧ (dispatchRequests false reuseGoodFixture).delivered.map RequestLog.url
        = [some "/a", some "/b"]
  ∧ (dispatchRequests false reuseGoodFixture).delivered.map RequestLog.id
        = [some "100", Option.none]
  ∧ (dispatchRequests false reuseGoodFixture).delivered.map RequestLog.client_ip
        = [some "1.2.3.4", Option.none]
  ∧ (dispatchRequests false reuseGoodFixture).delivered.map RequestLog.backend_name
        = [Option.none, some "b1"]
  ∧ (dispatchRequests false reuseGoodFixture).delivered.map (fun x => x.chunks.length)
        = [3, 3]
  ∧ (dispatchRequests false reuseGoodFixture).faults = 0 := by
  decide

/-- Counterexample for C1: with descriptor 7 first occupied by a backend
transaction that completes and is then reused by an unrelated client-role
start fragment, no client record is ever produced: the retained backend
record makes both client fragments fail the factory's kind assertion (two
caught faults), only the backend record is delivered, and descriptor 7
stays bound to the completed backend record. -/
theorem reuse_backend_then_client_faults :
    (dispatchRequests false reuseBadFixture).faults = 2
  ∧ (dispatchRequests false reuseBadFixture).delivered.map RequestLog.kind = [Kind.backend]
  ∧ ((dispatchRequests false reuseBadFixture).table 7).map RequestLog.kind
        = some Kind.backend
  ∧ ((dispatchRequests false reuseBadFixture).table 7).map RequestLog.complete
        = some true := by
  decide

/-- C2 (amended): once a record reaches COMPLETE it is deactivated, and
while a record is inactive every fragment that is not a role-matching start
fragment leaves the record, the table and the return value unchanged; a
Client Transaction's descriptor is unbound from the table at the moment its
reqend fragment is processed (completed backend records, by contrast, can
be re-activated and mutated by a later backendopen fragment — the
counterexample). -/
theorem completion_finality :
    (∀ (t : Table) (r : RequestLog) (c : Chunk),
        r.active = false → isStartChunk c = false →
        addChunk t r c = (t, r, false, Option.none))
  ∧ (∀ (t : Table) (r : RequestLog) (e : Chunk),
        t e.fd = some r → r.kind = Kind.client → r.active = true →
        r.fd = e.fd → ¬ e.fd = 0 → e.role = Role.client → e.tag = "reqend" →
        (requestLogNew t e).1 e.fd = Option.none) :=
  ⟨addChunk_inactive, client_reqend_unbinds⟩

/-- Witness for C2: a completed (inactive) backend record is untouched by a
further non-start fragment, and the reqend fragment of an active client
record bound at descriptor 7 leaves descriptor 7 unbound. -/
theorem completion_finality_witness :
    addChunk emptyTable doneBackend8 rxh8 = (emptyTable, doneBackend8, false, Option.none)
  ∧ (requestLogNew (Table.set emptyTable 7 activeClient7) reqend7).1 7 = Option.none :=
  ⟨completion_finality.1 emptyTable doneBackend8 rxh8 rfl rfl,
   completion_finality.2 (Table.set emptyTable 7 activeClient7) activeClient7 reqend7
     rfl rfl rfl rfl (by decide) rfl rfl⟩

/-- Counterexample for C2: after `reopenFixture`'s first two chunks the
backend record on descriptor 8 is COMPLETE with backend name `b1` and two
fragments; the third chunk (a fresh backendopen) mutates the completed
record: its backend name becomes `b2` and its fragment sequence grows to
three, while `complete` stays true. -/
theorem backend_reopen_mutates_after_complete :
    ((dispatchRequests false (reopenFixture.take 2)).table 8).map RequestLog.backend_name
        = some (some "b1")
  ∧ ((dispatchRequests false (reopenFixture.take 2)).table 8).map RequestLog.complete
        = some true
  ∧ ((dispatchRequests false (reopenFixture.take 2)).table 8).map (fun x => x.chunks.length)
        = some 2
  ∧ ((dispatchRequests false reopenFixture).table 8).map RequestLog.backend_name
        = some (some "b2")
  ∧ ((dispatchRequests false reopenFixture).table 8).map RequestLog.complete = some true
  ∧ ((dispatchRequests false reopenFixture).table 8).map (fun x => x.chunks.length)
        = some 3 := by
  decide

/-- C3 (amended): for every fragment whose role is client or backend, the
factory (`RequestLog.__new__`, the Builder's ingest) returns the
Transaction Record exactly when no fault is raised while processing the
fragment — whether or not the fragment made the record complete; completion
is signalled to the Dispatcher through the returned record's `complete`
flag, not by returning none. -/
theorem ingest_returns_iff_no_fault (t : Table) (c : Chunk)
    (hrole : ¬ c.role = Role.other) :
    ((requestLogNew t c).2.1.isSome = true ↔ (requestLogNew t c).2.2 = Option.none) := by
  cases h : t c.fd with
  | none =>
      cases hr : c.role with
      | client =>
          simp only [requestLogNew, h, hr]
          exact finishNew_isSome_iff _
      | backend =>
          simp only [requestLogNew, h, hr]
          exact finishNew_isSome_iff _
      | other => exact absurd hr hrole
  | some obj =>
      simp only [requestLogNew, h]
      by_cases h1 : (c.client && !(obj.kind == Kind.client)) = true
      · rw [if_pos h1]; simp
      · rw [if_neg h1]
        by_cases h2 : (c.backend && !(obj.kind == Kind.backend)) = true
        · rw [if_pos h2]; simp
        · rw [if_neg h2]; exact finishNew_isSome_iff _

/-- Witness for C3: a faultless client reqstart fragment makes the factory
return a record and no fault. -/
theorem ingest_returns_iff_no_fault_witness :
    ¬ reqstart5.role = Role.other
  ∧ (((requestLogNew emptyTable reqstart5).2.1.isSome = true)
      ↔ (requestLogNew emptyTable reqstart5).2.2 = Option.none) :=
  ⟨by decide, ingest_returns_iff_no_fault emptyTable reqstart5 (by decide)⟩

/-- Counterexample for C3: a client reqstart fragment does not complete the
record it creates, yet the factory returns that record (not none) — the
returned record has `complete = false` and no fault is raised. -/
theorem ingest_returns_incomplete_record :
    (requestLogNew emptyTable reqstart5).2.1.map RequestLog.complete = some false
  ∧ (requestLogNew emptyTable reqstart5).2.2 = Option.none := by
  decide

/-- C4: on a stream with exactly one complete client transaction
referencing exactly one complete backend transaction, `dispatch_requests`
with `aggregate = true` invokes the consumer exactly once — with the client
record, whose backend association is populated — and never with a backend
record; with `aggregate = false` it invokes the consumer exactly twice,
once with the backend record and once with the client record. -/
theorem aggregation_policy :
    (dispatchRequests true aggFixture).delivered.map RequestLog.kind = [Kind.client]
  ∧ (dispatchRequests true aggFixture).delivered.map RequestLog.backend_request = [some 8]
  ∧ (dispatchRequests true aggFixture).faults = 0
  ∧ (dispatchRequests false aggFixture).delivered.map RequestLog.kind
      = [Kind.backend, Kind.client]
  ∧ (dispatchRequests false aggFixture).faults = 0 := by
  refine ⟨by decide, by decide, by decide, by decide, by decide⟩

/-- C5: a fault raised while processing one fragment never aborts the
stream: the dispatcher always continues with the remaining fragments (the
fold over any extension of the stream keeps running from the state the
prefix produced, fault or not), and on the fixture with an unparsable
status payload (`"abc"`) the fault is recorded once while both the faulty
transaction's remaining fragments and the subsequent unrelated valid
transaction are still processed and delivered correctly. -/
theorem fault_isolation :
    (∀ (aggregate : Bool) (cs ds : List Chunk),
        dispatchRequests aggregate (cs ++ ds)
          = ds.foldl (dispatchStep aggregate) (dispatchRequests aggregate cs))
  ∧ (dispatchRequests true faultFixture).faults = 1
  ∧ (dispatchRequests true faultFixture).delivered.map RequestLog.id
      = [some "100", some "200"]
  ∧ (dispatchRequests true faultFixture).delivered.map RequestLog.status
      = [Option.none, some 200] := by
  refine ⟨?_, by decide, by decide, by decide⟩
  intro agg cs ds
  simp [dispatchRequests, List.foldl_append]

/-- C6: every fragment routed to a Transaction Record while the record is
inactive and that is not a role-matching start fragment is discarded: it is
never appended to the record's fragment sequence, no field of the record is
updated, the table is untouched and `add_chunk` returns false. -/
theorem activation_gating (t : Table) (r : RequestLog) (c : Chunk)
    (hact : r.active = false) (hstart : isStartChunk c = false) :
    addChunk t r c = (t, r, false, Option.none) :=
  addChunk_inactive t r c hact hstart

/-- Witness for C6: an inactive client record discards a request-url
fragment. -/
theorem activation_gating_witness :
    addChunk emptyTable (initLog Kind.client 5 false) rxurl5
      = (emptyTable, initLog Kind.client 5 false, false, Option.none) :=
  activation_gating emptyTable (initLog Kind.client 5 false) rxurl5 rfl rfl

/-- C7: feeding an active Client Transaction a sequence of request-header
fragments appends to `request_headers` (`rxheaders`) exactly one entry per
fragment, in feed order: the key is the part of the payload before the
first `:`, trimmed and lower-cased, and the value is the trimmed right-hand
side.  Starting from an empty mapping, N fragments therefore yield a
mapping of size N, and duplicate keys keep their values in insertion
order (the mapping is the ordered entry list itself). -/
theorem header_aggregation (t : Table) (r : RequestLog) (ps : List String)
    (hk : r.kind = Kind.client) (hact : r.active = true) (hfd : ¬ r.fd = 0)
    (hcol : ∀ p ∈ ps, (splitHeader p).isSome = true) :
    (addChunks t r (ps.map (headerChunk r.fd))).2.rxheaders
      = r.rxheaders ++ ps.map headerEntry := by
  induction ps generalizing t r with
  | nil => simp [addChunks_nil]
  | cons p ps ih =>
      obtain ⟨kv, hkv⟩ := Option.isSome_iff_exists.mp (hcol p (by simp))
      have hhe : headerEntry p = (pyLower (pyStrip kv.1), pyStrip kv.2) := by
        rw [headerEntry, hkv]
      rw [List.map_cons, addChunks_cons,
          addChunk_rxheader t r p kv hk hact hfd hkv]
      refine Eq.trans (ih _ _ rfl hact hfd ?_) ?_
      · exact fun q hq => hcol q (List.mem_cons_of_mem _ hq)
      · simp [hhe]

/-- Witness for C7: two header fragments on an active client record yield
the two trimmed, lower-cased entries in feed order. -/
theorem header_aggregation_witness :
    (addChunks emptyTable (initLog Kind.client 5 true)
        ((["Host: a", "X-Y: b"]).map (headerChunk (initLog Kind.client 5 true).fd))).2.rxheaders
      = (initLog Kind.client 5 true).rxheaders ++ (["Host: a", "X-Y: b"]).map headerEntry :=
  header_aggregation emptyTable (initLog Kind.client 5 true) ["Host: a", "X-Y: b"]
    rfl rfl (by decide) (by decide)

/-- C8 (amended): when a client backend-reference fragment reaches a
Backend Transaction that already exists in the table, it only augments the
record: `director_name` is set exactly when it is currently unset (Python
falsy) and is never overwritten once present, and the record's
`backend_name` is never changed by this path.  (The claim's further
assertion that `backend_name` is never overwritten once present fails:
backendopen/backendreuse fragments overwrite it unconditionally — see the
counterexample.) -/
theorem backend_reference_augment_only (t : Table) (r br : RequestLog) (c : Chunk)
    (bfd : Int) (bfdStr dir bn : String)
    (htag : c.tag = "backend")
    (hdata : pySplit ' ' c.data = [bfdStr, dir, bn])
    (hbfd : pyInt bfdStr = some bfd)
    (hbr : t bfd = some br) (hbk : br.kind = Kind.backend) :
    (onAppendClient t r c).1 bfd
      = some (if pyFalsyStr br.director_name = true
              then { br with director_name := some dir } else br) := by
  simp only [onAppendClient, htag]
  repeat rw [if_neg (by decide)]
  simp only [if_true, hdata, hbfd, hbr, hbk]
  simp [Table.set]

/-- Witness for C8: a backend record with both names present is returned
unchanged (its director already truthy) by a later client
backend-reference fragment. -/
theorem backend_reference_augment_only_witness :
    (onAppendClient (Table.set emptyTable 8 refBackend8) (initLog Kind.client 7 true)
        backendRef7).1 8
      = some (if pyFalsyStr refBackend8.director_name = true
              then { refBackend8 with director_name := some "dirNew" } else refBackend8) :=
  backend_reference_augment_only (Table.set emptyTable 8 refBackend8)
    (initLog Kind.client 7 true) refBackend8 backendRef7 8 "8" "dirNew" "nameZ"
    rfl (by decide) (by decide) rfl rfl

/-- Counterexample for C8: a backend record created by a client
backend-reference with `backend_name = "nameX"` has that name overwritten
to `"nameY"` as soon as its own backendopen fragment arrives, even though
the name was already present (`director_name`, by contrast, survives). -/
theorem backend_name_overwritten :
    ((dispatchRequests false (overwriteFixture.take 2)).table 8).map RequestLog.backend_name
        = some (some "nameX")
  ∧ ((dispatchRequests false overwriteFixture).table 8).map RequestLog.backend_name
        = some (some "nameY")
  ∧ ((dispatchRequests false overwriteFixture).table 8).map RequestLog.director_name
        = some (some "dir0") := by
  decide

/-- C9: the derived predicate `hit` of a Client Transaction holds exactly
when the string "hit" occurs among the values of `cache_decisions`
(`vcl_calls`), and `miss` analogously for "miss". -/
theorem hit_miss_value_membership (r : RequestLog) :
    (RequestLog.hit r = true ↔ ∃ kv ∈ r.vcl_calls, kv.2 = "hit")
  ∧ (RequestLog.miss r = true ↔ ∃ kv ∈ r.vcl_calls, kv.2 = "miss") := by
  constructor <;>
    simp [RequestLog.hit, RequestLog.miss, multiContains, List.any_eq_true]

/-- C10: a completed backend record retained in the table is delivered to
the consumer again when a later backend-role, non-start fragment arrives on
its descriptor under `aggregate = false`: on `redeliverFixture` the
consumer is invoked twice with one and the same completed backend record. -/
theorem completed_backend_redelivered :
    (dispatchRequests false redeliverFixture).delivered.length = 2
  ∧ (dispatchRequests false redeliverFixture).delivered.head?
      = (dispatchRequests false redeliverFixture).delivered.getLast?
  ∧ (dispatchRequests false redeliverFixture).delivered.map RequestLog.kind
      = [Kind.backend, Kind.backend]
  ∧ (dispatchRequests false redeliverFixture).delivered.map RequestLog.complete
      = [true, true]
  ∧ (dispatchRequests false redeliverFixture).faults = 0 := by
  decide
